import Mathlib

/-!
Shallow embedding of the notice-bridge notification history/compose logic:
the history view's filter engine and CSV export, and the compose form's
draft persistence and submit-time validation gate.  Timestamps are modelled
as integer milliseconds since the epoch; `Date` comparisons in the source
become integer comparisons.  TypeScript strings are modelled as `String`,
optional fields as `Option`.
-/

namespace NoticeBridge

/-! ## Data model (NotificationCenter.tsx types) -/

structure AcknowledgementSettings where
  required : Bool
  responseOptions : List String
  allowComments : Bool
  deadline : Option Int
  deriving DecidableEq

structure AcknowledgementResponse where
  recipientName : String
  selectedOption : String
  comment : Option String
  respondedAt : Int
  deriving DecidableEq

structure Notification where
  id : String
  title : String
  message : String
  channels : List String
  recipients : List String
  requiresAcknowledgement : Bool
  acknowledgementSettings : Option AcknowledgementSettings
  acknowledgementResponses : Option (List AcknowledgementResponse)
  status : String
  sentAt : Int
  acknowledgedBy : Option (List String)
  deriving DecidableEq

inductive AckFilterType where
  | all
  | required
  | not_required
  | complete
  | pending
  | overdue
  deriving DecidableEq

/-! ## Time model (date-fns startOfDay / endOfDay / isBefore / isAfter) -/

def dayMs : Int := 86400000

/-- date-fns `startOfDay`: floors a timestamp to the start of its calendar day. -/
def startOfDay (t : Int) : Int := dayMs * (t / dayMs)

/-- date-fns `endOfDay`: maps a timestamp to the last millisecond of its calendar day. -/
def endOfDay (t : Int) : Int := startOfDay t + (dayMs - 1)

/-- Predicate `listIncludes target l`: holds when `target` occurs as a contiguous run
inside `l`. -/
def listIncludes (target : List Char) : List Char → Bool
  | [] => target.isEmpty
  | c :: rest => target.isPrefixOf (c :: rest) || listIncludes target rest

/-- JavaScript `String.prototype.includes`: substring containment. -/
def stringIncludes (s target : String) : Bool :=
  listIncludes target.toList s.toList

/-! ## Filter engine (History.filteredNotifications) -/

structure FilterCriteria where
  searchQuery : String
  statusFilter : String
  channelFilters : List String
  ackFilter : AckFilterType
  dateFrom : Option Int
  dateTo : Option Int
  deriving DecidableEq

def defaultCriteria : FilterCriteria :=
  { searchQuery := ""
    statusFilter := "all"
    channelFilters := []
    ackFilter := AckFilterType.all
    dateFrom := none
    dateTo := none }

/-- The acknowledgement-filter switch from `filteredNotifications`, with the
`ackCount` / `totalRecipients` / `isComplete` / `isOverdue` locals of the
source.  `now` stands for the `new Date()` evaluation time. -/
def ackMatches (now : Int) (ackFilter : AckFilterType) (n : Notification) : Bool :=
  let ackCount := (n.acknowledgedBy.getD []).length
  let totalRecipients := n.recipients.length
  let isComplete := ackCount == totalRecipients
  let deadline := n.acknowledgementSettings.bind (fun s => s.deadline)
  let isOverdue := deadline.any (fun d => decide (d < now) && decide (ackCount < totalRecipients))
  match ackFilter with
  | AckFilterType.all => true
  | AckFilterType.required => n.requiresAcknowledgement
  | AckFilterType.not_required => !n.requiresAcknowledgement
  | AckFilterType.complete => n.requiresAcknowledgement && isComplete
  | AckFilterType.pending => n.requiresAcknowledgement && !isComplete
  | AckFilterType.overdue => isOverdue

/-- The per-notification predicate of `filteredNotifications`, translated
guard by guard: each early `return false` of the source becomes an
`if ... then false` branch. -/
def notificationMatches (now : Int) (c : FilterCriteria) (n : Notification) : Bool :=
  if c.searchQuery != "" &&
      !(stringIncludes n.title.toLower c.searchQuery.toLower) &&
      !(stringIncludes n.message.toLower c.searchQuery.toLower) then false
  else if c.statusFilter != "all" && n.status != c.statusFilter then false
  else if !c.channelFilters.isEmpty &&
      !(c.channelFilters.any (fun ch => n.channels.contains ch)) then false
  else if c.ackFilter != AckFilterType.all && !(ackMatches now c.ackFilter n) then false
  else if c.dateFrom.any (fun d => decide (n.sentAt < startOfDay d)) then false
  else if c.dateTo.any (fun d => decide (endOfDay d < n.sentAt)) then false
  else true

def filteredNotifications (now : Int) (c : FilterCriteria) (ns : List Notification) :
    List Notification :=
  ns.filter (notificationMatches now c)

/-- Modelled from the spec's contract wording: the filter keeps a notification
when every clause holds — query empty or a case-insensitive substring of title
or message, status "all" or equal, channel set empty or intersecting the
notification's channels, sent timestamp within the supplied day bounds, and
the acknowledgement predicate for the selected state. -/
def specMatches (now : Int) (c : FilterCriteria) (n : Notification) : Bool :=
  (c.searchQuery == "" || stringIncludes n.title.toLower c.searchQuery.toLower
      || stringIncludes n.message.toLower c.searchQuery.toLower)
    && (c.statusFilter == "all" || n.status == c.statusFilter)
    && (c.channelFilters.isEmpty || n.channels.any (fun ch => c.channelFilters.contains ch))
    && ackMatches now c.ackFilter n
    && (c.dateFrom.all (fun d => decide (startOfDay d ≤ n.sentAt)))
    && (c.dateTo.all (fun d => decide (n.sentAt ≤ endOfDay d)))

/-! ## CSV export (History.handleDownloadCSV) -/

/-- Lookup in `new Map(responses.map(r => [r.recipientName, r]))`: building a
JavaScript `Map` from an entry list lets later entries overwrite earlier ones,
so `get` returns the last entry with the key. -/
def responseMapGet (responses : List AcknowledgementResponse) (recipient : String) :
    Option AcknowledgementResponse :=
  responses.foldl (fun found r => if r.recipientName == recipient then some r else found) none

def doubleQuoteChar (c : Char) : List Char :=
  if c == '"' then ['"', '"'] else [c]

/-- JavaScript `value.replace(/"/g, '""')`: every double-quote character is doubled. -/
def replaceQuotes (value : String) : String :=
  String.mk (value.toList.flatMap doubleQuoteChar)

def escapeCSV (value : String) : String :=
  if stringIncludes value "," || stringIncludes value "\"" || stringIncludes value "\n" then
    "\"" ++ replaceQuotes value ++ "\""
  else value

def pad2 (n : Nat) : String :=
  if n < 10 then "0" ++ toString n else toString n

def pad4 (n : Int) : String :=
  if n < 10 then "000" ++ toString n
  else if n < 100 then "00" ++ toString n
  else if n < 1000 then "0" ++ toString n
  else toString n

/-- Proleptic-Gregorian civil date from a day count relative to 1970-01-01
(the standard days-to-civil conversion): returns (year, month, day). -/
def civilFromDays (z0 : Int) : Int × Nat × Nat :=
  let z := z0 + 719468
  let era := z / 146097
  let doe := (z - era * 146097).toNat
  let yoe := (doe - doe / 1460 + doe / 36524 - doe / 146096) / 365
  let y := (yoe : Int) + era * 400
  let doy := doe - (365 * yoe + yoe / 4 - yoe / 100)
  let mp := (5 * doy + 2) / 153
  let d := doy - (153 * mp + 2) / 5 + 1
  let m := if mp < 10 then mp + 3 else mp - 9
  (if m ≤ 2 then y + 1 else y, m, d)

/-- date-fns `format(date, "yyyy-MM-dd HH:mm:ss")` on a millisecond timestamp. -/
def formatTimestamp (ms : Int) : String :=
  let day := ms / dayMs
  let msOfDay := (ms % dayMs).toNat
  let secs := msOfDay / 1000
  let ymd := civilFromDays day
  pad4 ymd.1 ++ "-" ++ pad2 ymd.2.1 ++ "-" ++ pad2 ymd.2.2 ++ " " ++
    pad2 (secs / 3600) ++ ":" ++ pad2 (secs % 3600 / 60) ++ ":" ++ pad2 (secs % 60)

/-- One CSV row of `handleDownloadCSV`: the body of
`notification.recipients.map(recipient => ...)`. -/
def buildRow (responses : List AcknowledgementResponse) (recipient : String) : List String :=
  match responseMapGet responses recipient with
  | some response =>
      [recipient, "Responded", response.selectedOption, response.comment.getD "",
        formatTimestamp response.respondedAt]
  | none => [recipient, "Pending", "", "", ""]

def csvHeaders : List String := ["Recipient", "Status", "Response", "Comments", "Response Time"]

/-- The `csvContent` string built by `handleDownloadCSV` (the pure part; the
blob/anchor download plumbing is outside the embedding). -/
def csvContent (n : Notification) : String :=
  let responses := n.acknowledgementResponses.getD []
  let rows := n.recipients.map (buildRow responses)
  String.intercalate "\n"
    (String.intercalate "," (csvHeaders.map escapeCSV) ::
      rows.map (fun row => String.intercalate "," (row.map escapeCSV)))

/-- Modelled from the spec's contract wording: the row for a recipient, built
from the matching response — resolved, for duplicate names, to the last
response naming the recipient. -/
def specRow (responses : List AcknowledgementResponse) (recipient : String) : List String :=
  match (responses.filter (fun r => r.recipientName == recipient)).getLast? with
  | some response =>
      [recipient, "Responded", response.selectedOption, response.comment.getD "",
        formatTimestamp response.respondedAt]
  | none => [recipient, "Pending", "", "", ""]

/-- Modelled from the spec's contract wording: fixed header row, then one row
per recipient in recipient-list order, rows joined with newlines. -/
def csvContentSpec (n : Notification) : String :=
  String.intercalate "\n"
    (String.intercalate "," (csvHeaders.map escapeCSV) ::
      n.recipients.map (fun recipient =>
        String.intercalate ","
          (((specRow (n.acknowledgementResponses.getD []) recipient)).map escapeCSV)))

/-! ## Compose form (ComposeNotification.tsx, scheduled-delivery variant) -/

inductive ComposeChannel where
  | email
  | sms
  | portal
  deriving DecidableEq

/-- The `ChannelMessages` contents; attachment handles (browser `File` objects)
are outside the embedding — `handleSubmit` and draft saving never read them
(draft saving stores them as empty lists). -/
structure ChannelMessages where
  emailContent : String
  portalContent : String
  smsContent : String
  deriving DecidableEq

structure Employee where
  id : String
  name : String
  email : String
  department : String
  role : String
  location : String
  status : String
  deriving DecidableEq

structure Draft where
  id : String
  title : String
  channels : List ComposeChannel
  channelMessages : ChannelMessages
  recipients : List Employee
  requiresAcknowledgement : Bool
  savedAt : String
  deriving DecidableEq

/-- The list update of `handleSaveDraft`:
`[newDraft, ...drafts.slice(0, 9)]` (keep max 10 drafts). -/
def saveDraft (newDraft : Draft) (drafts : List Draft) : List Draft :=
  newDraft :: drafts.take 9

inductive DeliveryType where
  | immediate
  | scheduled
  deriving DecidableEq

structure FormState where
  title : String
  channels : List ComposeChannel
  channelMessages : ChannelMessages
  requiresAcknowledgement : Bool
  selectedRecipients : List Employee
  deliveryType : DeliveryType
  scheduledDate : Option Int
  scheduledTime : String
  deriving DecidableEq

def initialMessages : ChannelMessages :=
  { emailContent := "", portalContent := "", smsContent := "" }

/-- The field values `handleSubmit` resets the form to after a send. -/
def initialFormState : FormState :=
  { title := ""
    channels := []
    channelMessages := initialMessages
    requiresAcknowledgement := false
    selectedRecipients := []
    deliveryType := DeliveryType.immediate
    scheduledDate := none
    scheduledTime := "09:00" }

def channelContent (m : ChannelMessages) : ComposeChannel → String
  | ComposeChannel.email => m.emailContent
  | ComposeChannel.portal => m.portalContent
  | ComposeChannel.sms => m.smsContent

/-- Source `hasValidMessages`: every selected channel has non-empty content after
trimming. -/
def hasValidMessages (st : FormState) : Bool :=
  st.channels.all (fun channel =>
    match channel with
    | ComposeChannel.email => decide (0 < st.channelMessages.emailContent.trim.length)
    | ComposeChannel.portal => decide (0 < st.channelMessages.portalContent.trim.length)
    | ComposeChannel.sms => decide (0 < st.channelMessages.smsContent.trim.length))

/-- The argument of the `onSend` callback. -/
structure SendPayload where
  title : String
  message : String
  channels : List ComposeChannel
  recipients : List String
  requiresAcknowledgement : Bool
  deriving DecidableEq

def channelTag : ComposeChannel → String
  | ComposeChannel.email => "[Email] "
  | ComposeChannel.portal => "[Portal] "
  | ComposeChannel.sms => "[SMS] "

/-- The `combinedMessage` built by `handleSubmit`. -/
def combinedMessage (st : FormState) : String :=
  String.intercalate "\n\n"
    (st.channels.map (fun ch => channelTag ch ++ channelContent st.channelMessages ch))

/-- Source `handleSubmit` as a pure transition: returns the `onSend` payload (none
when validation fails) and the resulting form state. -/
def handleSubmit (st : FormState) : Option SendPayload × FormState :=
  if st.title == "" || st.channels.isEmpty || st.selectedRecipients.isEmpty
      || !(hasValidMessages st) then
    (none, st)
  else if st.deliveryType == DeliveryType.scheduled && st.scheduledDate.isNone then
    (none, st)
  else
    (some { title := st.title
            message := combinedMessage st
            channels := st.channels
            recipients := st.selectedRecipients.map (fun r => r.name)
            requiresAcknowledgement := st.requiresAcknowledgement },
      initialFormState)

/-- Modelled from the spec's wording of the validation gate: non-empty title,
at least one channel, at least one recipient, no selected channel with
message content empty after trimming, and not (scheduled delivery without a
scheduled date). -/
def validationGate (st : FormState) : Bool :=
  !(st.title == "") && !(st.channels.isEmpty) && !(st.selectedRecipients.isEmpty)
    && st.channels.all (fun ch => !((channelContent st.channelMessages ch).trim == ""))
    && !(st.deliveryType == DeliveryType.scheduled && st.scheduledDate.isNone)

/-! ## Helper lemmas -/

theorem bool_eq_of_iff {a b : Bool} (h : a = true ↔ b = true) : a = b := by
  cases a <;> cases b <;> simp_all

theorem contains_iff_mem {l : List String} {a : String} : l.contains a = true ↔ a ∈ l :=
  List.elem_iff

theorem any_contains_comm (l₁ l₂ : List String) :
    l₁.any (fun x => l₂.contains x) = l₂.any (fun x => l₁.contains x) := by
  apply bool_eq_of_iff
  simp only [List.any_eq_true, contains_iff_mem]
  exact ⟨fun ⟨x, h₁, h₂⟩ => ⟨x, h₂, h₁⟩, fun ⟨x, h₁, h₂⟩ => ⟨x, h₂, h₁⟩⟩

theorem not_decide_lt (x y : Int) : (!decide (x < y)) = decide (y ≤ x) := by
  rw [← decide_not]
  exact decide_eq_decide.mpr Int.not_lt

theorem guard_chain (b1 b2 b3 b4 b5 b6 : Bool) :
    (if b1 then false else if b2 then false else if b3 then false
      else if b4 then false else if b5 then false else if b6 then false else true)
      = (!b1 && !b2 && !b3 && !b4 && !b5 && !b6) := by
  cases b1 <;> cases b2 <;> cases b3 <;> cases b4 <;> cases b5 <;> cases b6 <;> rfl

theorem ackMatches_all (now : Int) (n : Notification) :
    ackMatches now AckFilterType.all n = true := rfl

theorem ack_guard (af : AckFilterType) (a : Bool) (hall : af = AckFilterType.all → a = true) :
    (!(af != AckFilterType.all && !a)) = a := by
  cases af <;> cases a <;> simp_all

theorem notificationMatches_eq_specMatches (now : Int) (c : FilterCriteria) (n : Notification) :
    notificationMatches now c n = specMatches now c n := by
  obtain ⟨q, sf, chs, af, df, dt⟩ := c
  unfold notificationMatches specMatches
  rw [guard_chain]
  have h1 : (!(q != "" && !(stringIncludes n.title.toLower q.toLower)
        && !(stringIncludes n.message.toLower q.toLower)))
      = (q == "" || stringIncludes n.title.toLower q.toLower
        || stringIncludes n.message.toLower q.toLower) := by
    simp only [bne]
    cases (q == "") <;> cases stringIncludes n.title.toLower q.toLower <;>
      cases stringIncludes n.message.toLower q.toLower <;> rfl
  have h2 : (!(sf != "all" && n.status != sf)) = (sf == "all" || n.status == sf) := by
    simp only [bne]
    cases (sf == "all") <;> cases (n.status == sf) <;> rfl
  have h3 : (!(!chs.isEmpty && !(chs.any fun ch => n.channels.contains ch)))
      = (chs.isEmpty || n.channels.any fun ch => chs.contains ch) := by
    rw [← any_contains_comm chs n.channels]
    cases chs.isEmpty <;> cases (chs.any fun ch => n.channels.contains ch) <;> rfl
  have h4 : (!(af != AckFilterType.all && !(ackMatches now af n))) = ackMatches now af n :=
    ack_guard af _ (fun h => by rw [h]; exact ackMatches_all now n)
  have h5 : (!(Option.any (fun d => decide (n.sentAt < startOfDay d)) df))
      = Option.all (fun d => decide (startOfDay d ≤ n.sentAt)) df := by
    cases df with
    | none => rfl
    | some d => simp only [Option.any_some, Option.all_some, not_decide_lt]
  have h6 : (!(Option.any (fun d => decide (endOfDay d < n.sentAt)) dt))
      = Option.all (fun d => decide (n.sentAt ≤ endOfDay d)) dt := by
    cases dt with
    | none => rfl
    | some d => simp only [Option.any_some, Option.all_some, not_decide_lt]
  rw [h1, h2, h3, h4, h5, h6]

/-- C7: with every filter criterion at its default value, the filter engine
returns the input list unchanged. -/
theorem filter_defaults_identity (now : Int) (ns : List Notification) :
    filteredNotifications now defaultCriteria ns = ns :=
  List.filter_eq_self.mpr (fun _ _ => rfl)

/-- C2: the filter engine returns exactly the notifications, in input order,
satisfying the conjunction of the spec's clauses (query substring, status
equality, channel intersection, acknowledgement predicate, day-bounded date
window); and with from-date and to-date both set to day D it selects exactly
the notifications sent within calendar day D. -/
theorem filteredNotifications_spec :
    (∀ (now : Int) (c : FilterCriteria) (ns : List Notification),
      filteredNotifications now c ns = ns.filter (specMatches now c))
    ∧ (∀ (now d : Int) (n : Notification),
      notificationMatches now { defaultCriteria with dateFrom := some d, dateTo := some d } n
        = decide (startOfDay n.sentAt = startOfDay d)) := by
  constructor
  · intro now c ns
    unfold filteredNotifications
    exact List.filter_congr (fun n _ => notificationMatches_eq_specMatches now c n)
  · intro now d n
    show (if decide (n.sentAt < startOfDay d) then false
      else if decide (endOfDay d < n.sentAt) then false else true)
        = decide (startOfDay n.sentAt = startOfDay d)
    simp only [startOfDay, endOfDay, dayMs, decide_eq_true_eq]
    split
    · rename_i h
      symm
      rw [decide_eq_false_iff_not]
      omega
    · split
      · rename_i h₁ h₂
        symm
        rw [decide_eq_false_iff_not]
        omega
      · rename_i h₁ h₂
        symm
        rw [decide_eq_true_eq]
        omega

theorem if_not_bool (a : Bool) : (if !a then false else true) = a := by
  cases a <;> rfl

/-- With all other criteria at defaults, the filter predicate reduces to the
acknowledgement switch. -/
theorem notificationMatches_ackOnly (now : Int) (af : AckFilterType) (n : Notification) :
    notificationMatches now { defaultCriteria with ackFilter := af } n
      = ackMatches now af n := by
  cases af
  case all => rfl
  case required => exact if_not_bool _
  case not_required => exact if_not_bool _
  case complete => exact if_not_bool _
  case pending => exact if_not_bool _
  case overdue => exact if_not_bool _

/-- C4: the "overdue" acknowledgement filter state selects a notification iff
an acknowledgement-settings deadline exists, the evaluation time is strictly
after it, and the acknowledged count is strictly below the recipient count;
the `requiresAcknowledgement` flag is not consulted (the characterization
never mentions it). -/
theorem overdue_filter_spec (now : Int) (n : Notification) :
    notificationMatches now { defaultCriteria with ackFilter := AckFilterType.overdue } n = true
      ↔ ∃ d, n.acknowledgementSettings.bind (fun s => s.deadline) = some d ∧ d < now
          ∧ (n.acknowledgedBy.getD []).length < n.recipients.length := by
  rw [notificationMatches_ackOnly]
  unfold ackMatches
  cases hdl : n.acknowledgementSettings.bind (fun s => s.deadline) with
  | none => simp [hdl]
  | some d => simp [hdl]

/-- A concrete notification whose acknowledged count (2) exceeds its
recipient count (1). -/
def overAckNotification : Notification :=
  { id := "1", title := "T", message := "M", channels := ["email"],
    recipients := ["Alice"], requiresAcknowledgement := true,
    acknowledgementSettings := none, acknowledgementResponses := none,
    status := "sent", sentAt := 0, acknowledgedBy := some ["Alice", "Bob"] }

/-- C3 counterexample: a notification with one recipient but two entries in
`acknowledgedBy` (acknowledged count 2, recipient count 1, requires-ack true)
is selected by the "pending" filter state even though its acknowledged count
is not strictly less than its recipient count — refuting "pending selects iff
requires-ack and count strictly less" and "a count exceeding the recipient
count is selected by neither state". -/
theorem pending_filter_cex :
    notificationMatches 0 { defaultCriteria with ackFilter := AckFilterType.pending }
        overAckNotification = true
    ∧ overAckNotification.requiresAcknowledgement = true
    ∧ (overAckNotification.acknowledgedBy.getD []).length = 2
    ∧ overAckNotification.recipients.length = 1
    ∧ decide ((overAckNotification.acknowledgedBy.getD []).length
        < overAckNotification.recipients.length) = false := by
  decide

/-- C3 amended: "complete" selects iff requires-ack holds and the acknowledged
count equals the recipient count; "pending" selects iff requires-ack holds and
the acknowledged count differs from the recipient count (so a count exceeding
the recipient count is selected by "pending"). -/
theorem ack_complete_pending_spec (now : Int) (n : Notification) :
    (notificationMatches now { defaultCriteria with ackFilter := AckFilterType.complete } n = true
      ↔ n.requiresAcknowledgement = true
        ∧ (n.acknowledgedBy.getD []).length = n.recipients.length)
    ∧ (notificationMatches now { defaultCriteria with ackFilter := AckFilterType.pending } n = true
      ↔ n.requiresAcknowledgement = true
        ∧ (n.acknowledgedBy.getD []).length ≠ n.recipients.length) := by
  rw [notificationMatches_ackOnly, notificationMatches_ackOnly]
  unfold ackMatches
  constructor
  · simp [Bool.and_eq_true]
  · simp [Bool.and_eq_true, Bool.not_eq_true', beq_eq_false_iff_ne]

theorem foldr_first_match (p : AcknowledgementResponse → Bool)
    (l : List AcknowledgementResponse) (acc : Option AcknowledgementResponse) :
    l.foldr (fun r found => if p r then some r else found) acc
      = (match (l.filter p).head? with
          | some r => some r
          | none => acc) := by
  induction l with
  | nil => rfl
  | cons a t ih =>
      show (if p a then some a else t.foldr (fun r found => if p r then some r else found) acc)
        = _
      rw [ih]
      cases hp : p a
      · rw [List.filter_cons_of_neg (by simp [hp])]
        simp
      · rw [List.filter_cons_of_pos hp]
        simp

/-- The JavaScript-`Map` lookup returns the last response with the key. -/
theorem responseMapGet_eq (rs : List AcknowledgementResponse) (name : String) :
    responseMapGet rs name
      = (rs.filter (fun r => r.recipientName == name)).getLast? := by
  unfold responseMapGet
  have step1 : rs.foldl (fun found r => if r.recipientName == name then some r else found) none
      = rs.reverse.foldr (fun r found => if r.recipientName == name then some r else found)
          none :=
    (List.foldr_reverse rs _ none).symm
  rw [step1, foldr_first_match, List.filter_reverse, List.head?_reverse]
  cases (rs.filter (fun r => r.recipientName == name)).getLast? <;> rfl

theorem buildRow_eq_specRow (rs : List AcknowledgementResponse) (name : String) :
    buildRow rs name = specRow rs name := by
  unfold buildRow specRow
  rw [responseMapGet_eq]

/-- C10: the CSV row for a recipient is built from the last response naming
that recipient — the map lookup is the last matching response, and the row
equals the spec-side row built from that last match, so earlier duplicates
contribute nothing. -/
theorem duplicate_responses_last_wins (rs : List AcknowledgementResponse) (name : String) :
    responseMapGet rs name = (rs.filter (fun r => r.recipientName == name)).getLast?
    ∧ buildRow rs name = specRow rs name :=
  ⟨responseMapGet_eq rs name, buildRow_eq_specRow rs name⟩

/-- C5: the produced CSV is the fixed header row followed by one row per
recipient in recipient-list order (responded rows carrying option, comment
and formatted time; non-responders as Pending with empty fields), joined by
newlines — i.e. the source equals the spec-shaped construction. -/
theorem csvContent_eq_spec (n : Notification) : csvContent n = csvContentSpec n := by
  simp only [csvContent, csvContentSpec, List.map_map]
  congr 1
  congr 1
  apply List.map_congr_left
  intro recipient hmem
  simp only [Function.comp_apply]
  rw [buildRow_eq_specRow]

def ghostResponse : AcknowledgementResponse :=
  { recipientName := "Ghost", selectedOption := "OK", comment := none, respondedAt := 0 }

/-- A concrete notification holding a response whose recipient name is not in
the recipient list. -/
def ghostNotification : Notification :=
  { id := "g", title := "T", message := "M", channels := ["email"],
    recipients := ["Alice"], requiresAcknowledgement := true,
    acknowledgementSettings := none,
    acknowledgementResponses := some [ghostResponse],
    status := "sent", sentAt := 0, acknowledgedBy := none }

/-- C1 counterexample: a response naming "Ghost", who is not a recipient, is
in the responses list, yet the CSV is exactly the header plus the single
recipient row — no extra, unmatched row appears and "Ghost" occurs nowhere in
the output, so the response is dropped rather than included. -/
theorem csv_unmatched_cex :
    ghostResponse ∈ ghostNotification.acknowledgementResponses.getD []
    ∧ ghostNotification.recipients.contains ghostResponse.recipientName = false
    ∧ csvContent ghostNotification
        = "Recipient,Status,Response,Comments,Response Time\nAlice,Pending,,,"
    ∧ stringIncludes (csvContent ghostNotification) "Ghost" = false := by
  refine ⟨by decide, by decide, rfl, rfl⟩

/-- The same notification with every response whose recipient name is outside
the recipient list removed. -/
def dropUnmatchedResponses (n : Notification) : Notification :=
  { n with
    acknowledgementResponses :=
      some ((n.acknowledgementResponses.getD []).filter
        (fun r => n.recipients.contains r.recipientName)) }

/-- C1 amended: responses whose recipient name is not in the recipient list
contribute nothing to the CSV — the output is unchanged when all such
responses are removed (the rows remain exactly one per recipient). -/
theorem csv_unmatched_dropped (n : Notification) :
    csvContent n = csvContent (dropUnmatchedResponses n) := by
  simp only [csvContent, dropUnmatchedResponses, Option.getD_some, List.map_map]
  congr 1
  congr 1
  apply List.map_congr_left
  intro recipient hmem
  simp only [Function.comp_apply]
  have hfil : (n.acknowledgementResponses.getD []).filter
        (fun r => r.recipientName == recipient)
      = ((n.acknowledgementResponses.getD []).filter
          (fun r => n.recipients.contains r.recipientName)).filter
          (fun r => r.recipientName == recipient) := by
    rw [List.filter_filter]
    apply List.filter_congr
    intro r _
    cases hm : (r.recipientName == recipient)
    · rfl
    · have hname : r.recipientName = recipient := beq_iff_eq.mp hm
      show true = (true && n.recipients.contains r.recipientName)
      rw [Bool.true_and]
      exact (contains_iff_mem.mpr (hname ▸ hmem)).symm
  have hrow : buildRow (n.acknowledgementResponses.getD []) recipient
      = buildRow ((n.acknowledgementResponses.getD []).filter
          (fun r => n.recipients.contains r.recipientName)) recipient := by
    unfold buildRow
    rw [responseMapGet_eq, responseMapGet_eq, hfil]
  rw [hrow]

theorem singleton_listIncludes (c : Char) (l : List Char) :
    listIncludes [c] l = l.contains c := by
  induction l with
  | nil => rfl
  | cons a t ih =>
      show ([c].isPrefixOf (a :: t) || listIncludes [c] t) = (a :: t).contains c
      rw [ih]
      cases h : (c == a) <;>
        simp [List.isPrefixOf, List.contains, List.elem, h]

/-- C6: a field containing a comma, double-quote, or newline is emitted
wrapped in double quotes with each internal double-quote doubled, and any
other field is emitted unchanged; in particular the field
`Need, "more" info` is rendered as `"Need, ""more"" info"`. -/
theorem escapeCSV_spec :
    (∀ s : String,
      (escapeCSV s).toList =
        if s.toList.contains ',' || s.toList.contains '"' || s.toList.contains '\n'
        then '"' :: (s.toList.flatMap doubleQuoteChar) ++ ['"']
        else s.toList)
    ∧ escapeCSV "Need, \"more\" info" = "\"Need, \"\"more\"\" info\"" := by
  constructor
  · intro s
    unfold escapeCSV stringIncludes
    rw [show (",".toList) = [','] from rfl, show ("\"".toList) = ['"'] from rfl,
      show ("\n".toList) = ['\n'] from rfl]
    rw [singleton_listIncludes, singleton_listIncludes, singleton_listIncludes]
    rw [apply_ite String.toList]
    split
    · show ("\"" ++ replaceQuotes s ++ "\"").data = _
      rw [String.data_append, String.data_append]
      rfl
    · rfl
  · rfl

/-- C8: starting from any draft list, after eleven saves the persisted list is
exactly the ten most recently saved drafts, most recent first; and each save
prepends the new draft and truncates to at most ten entries. -/
theorem saveDraft_eleven_spec (init : List Draft)
    (d1 d2 d3 d4 d5 d6 d7 d8 d9 d10 d11 : Draft) :
    saveDraft d11 (saveDraft d10 (saveDraft d9 (saveDraft d8 (saveDraft d7 (saveDraft d6
        (saveDraft d5 (saveDraft d4 (saveDraft d3 (saveDraft d2 (saveDraft d1 init))))))))))
      = [d11, d10, d9, d8, d7, d6, d5, d4, d3, d2]
    ∧ (∀ (d : Draft) (drafts : List Draft), saveDraft d drafts = (d :: drafts).take 10) := by
  constructor
  · rfl
  · intro d drafts
    rfl

theorem length_pos_eq_not_beq_empty (t : String) : decide (0 < t.length) = !(t == "") := by
  apply bool_eq_of_iff
  simp only [decide_eq_true_eq, Bool.not_eq_true', beq_eq_false_iff_ne, ne_eq]
  constructor
  · intro h heq
    subst heq
    exact absurd h (by decide)
  · intro h
    by_contra hn
    apply h
    have h0 : t.data.length = 0 := Nat.le_zero.mp (Nat.not_lt.mp hn)
    exact String.ext_iff.mpr (List.length_eq_zero.mp h0)

/-- The source's per-channel content check agrees with the spec-side
"no selected channel's content is empty after trimming" clause. -/
theorem hasValidMessages_eq (st : FormState) :
    hasValidMessages st
      = st.channels.all (fun ch => !((channelContent st.channelMessages ch).trim == "")) := by
  unfold hasValidMessages
  exact congrArg _ (funext (fun ch => by
    cases ch <;> exact length_pos_eq_not_beq_empty _))

/-- C9: the `onSend` callback is invoked iff the validation gate passes, and
when the gate fails every form field is left unchanged (on success the form
is reset to its initial values). -/
theorem handleSubmit_spec (st : FormState) :
    (handleSubmit st).1.isSome = validationGate st
    ∧ (handleSubmit st).2 = (if validationGate st then initialFormState else st) := by
  unfold handleSubmit validationGate
  rw [← hasValidMessages_eq st]
  cases h1 : (st.title == "") <;> cases h2 : st.channels.isEmpty <;>
    cases h3 : st.selectedRecipients.isEmpty <;> cases h4 : hasValidMessages st <;>
    cases h5 : (st.deliveryType == DeliveryType.scheduled && st.scheduledDate.isNone) <;>
    exact ⟨rfl, rfl⟩

end NoticeBridge
